import Mathlib

/-!
Shallow embedding of `src/main.py` (Snow White Project): a FastAPI app that
records daily mining-production totals (`termeles` table) and per-worker
production entries (`dwarf_as_workers` table), with latest-record queries,
CSV exports, and a line-chart endpoint.

Modelling conventions:
- Python runtime values that flow into the `isinstance` checks are modelled
  by the sum type `Value` (int / float / str); Python floats are modelled as
  rationals (`ℚ`), which is exact for every quantity the claims touch.
- Each database table is a list of rows in rowid (insertion) order; the
  autoincrement primary key is `max id + 1`, as SQLite assigns rowids.
- A handler outcome carries the resulting table state, the result
  (normal return / raised exception, kept as data), and a `closed` flag
  recording whether the session was closed; the `finally: session.close()`
  of the source is the wrapper that sets `closed := true` on every branch.
- `datetime.strptime(datum, "%Y-%m-%d")` is modelled by `strptimeYmd`:
  exactly three '-'-separated digit groups, a 4-digit year ≥ 1, a 1-2 digit
  month in 1..12, and a 1-2 digit day valid for that month and year.
-/

/-- Python runtime values reaching the `isinstance` checks of the handlers. -/
inductive Value where
  | int (n : Int)
  | float (q : ℚ)
  | str (s : String)
deriving DecidableEq, Repr

def Value.isInt : Value → Bool
  | .int _ => true
  | _ => false

def Value.isFloat : Value → Bool
  | .float _ => true
  | _ => false

def Value.isStr : Value → Bool
  | .str _ => true
  | _ => false

/-- `DATA_MUST_BE_POSITIVE` constant of `main.py`. -/
def DATA_MUST_BE_POSITIVE : String := "Positive values are needed!"

/-- `NO_DATA` constant of `main.py`. -/
def NO_DATA : String := "No data found"

/-- Python exceptions that `check_value` can raise. -/
inductive PyErr where
  | valueError (msg : String)
  | typeError (msg : String)
deriving DecidableEq, Repr

/-- `DatabaseHandler.check_value`: raises `ValueError(DATA_MUST_BE_POSITIVE)`
if `value < 0`; a Python `<` between a str and an int would raise `TypeError`. -/
def check_value (value : Value) : Except PyErr Unit :=
  match value with
  | .int n => if n < 0 then .error (.valueError DATA_MUST_BE_POSITIVE) else .ok ()
  | .float q => if q < 0 then .error (.valueError DATA_MUST_BE_POSITIVE) else .ok ()
  | .str _ => .error (.typeError "not supported between instances of str and int")

/-- Split a character list on `'-'` (the literal separators of `"%Y-%m-%d"`). -/
def splitOnDash : List Char → List (List Char)
  | [] => [[]]
  | c :: cs =>
    let rest := splitOnDash cs
    if c = '-' then [] :: rest
    else
      match rest with
      | [] => [[c]]
      | p :: ps => (c :: p) :: ps

/-- Nonempty all-digit character group. -/
def allDigits (cs : List Char) : Bool := !cs.isEmpty && cs.all Char.isDigit

/-- Decimal value of a digit group. -/
def digitsToNat (cs : List Char) : Nat :=
  cs.foldl (fun a c => a * 10 + (c.toNat - 48)) 0

/-- Gregorian leap-year rule, as `datetime` uses. -/
def isLeapYear (y : Nat) : Bool := (y % 4 == 0 && y % 100 != 0) || y % 400 == 0

/-- Number of days of month `m` in year `y`, as `datetime` validates. -/
def daysInMonth (y m : Nat) : Nat :=
  if m = 2 then (if isLeapYear y then 29 else 28)
  else if m = 4 ∨ m = 6 ∨ m = 9 ∨ m = 11 then 30 else 31

/-- `datetime.strptime(s, "%Y-%m-%d")`: `%Y` matches exactly four digits,
`%m` and `%d` one or two digits, separated by literal dashes with nothing
left over; the resulting components must form a valid calendar date
(year ≥ 1, month 1..12, day 1..days of that month). Returns
`(year, month, day)` on success, `none` when a `ValueError` is raised. -/
def strptimeYmd (s : String) : Option (Nat × Nat × Nat) :=
  match splitOnDash s.toList with
  | [ys, ms, ds] =>
    if allDigits ys && ys.length = 4 && allDigits ms && ms.length ≤ 2
        && allDigits ds && ds.length ≤ 2 then
      let y := digitsToNat ys
      let m := digitsToNat ms
      let d := digitsToNat ds
      if 1 ≤ y && 1 ≤ m && m ≤ 12 && 1 ≤ d && d ≤ daysInMonth y m then
        some (y, m, d)
      else none
    else none
  | _ => none

/-- One row of the `termeles` table (ORM class `Termeles`). -/
structure Termeles where
  id : Nat
  ev : Nat
  honap : Nat
  nap : Nat
  aranytermeles : Int
  ezusttermeles : Int
  gyemanttermeles : ℚ
deriving DecidableEq, Repr

/-- One row of the `dwarf_as_workers` table (ORM class `DwarfsAsWorkers`). -/
structure DwarfsAsWorkers where
  id : Nat
  name : String
  date : Nat × Nat × Nat
  gold : Int
  silver : Int
  diamond : ℚ
deriving DecidableEq, Repr

/-- Greatest key of a table, 0 when it is empty. -/
def maxKey {α : Type} (key : α → Nat) (rows : List α) : Nat :=
  rows.foldl (fun m r => max m (key r)) 0

/-- Next autoincrement id for the `termeles` table: `max rowid + 1`. -/
def nextTermelesId (rows : List Termeles) : Nat :=
  maxKey Termeles.id rows + 1

/-- Next autoincrement id for the `dwarf_as_workers` table: `max rowid + 1`. -/
def nextDwarfId (rows : List DwarfsAsWorkers) : Nat :=
  maxKey DwarfsAsWorkers.id rows + 1

/-- Result of `DatabaseHandler.insert_termeles`: the source RETURNS the set
`{f"Validation error: {ve}"}` on `ValueError` (it does not raise), and raises
`Exception(f"Database error: {e}")` on `SQLAlchemyError`. -/
inductive TermelesInsertResult where
  | ok
  | validationReturn (msg : String)
  | raisedError (msg : String)
deriving DecidableEq, Repr

structure TermelesInsertOutcome where
  result : TermelesInsertResult
  rows : List Termeles
  closed : Bool
deriving DecidableEq, Repr

/-- The first failing `isinstance` check of `insert_termeles`, with the
message of the `ValueError` it raises. -/
def termelesTypeError (datum arany ezust gyemant : Value) : Option String :=
  if !datum.isStr then some "The 'datum' field must be a string."
  else if !arany.isInt then some "The 'arany' field must be an integer."
  else if !ezust.isInt then some "The 'ezust' field must be an integer."
  else if !gyemant.isFloat then some "The 'gyemant' field must be a float."
  else none

/-- The `try` block of `insert_termeles` together with the two `except`
clauses (each of which rolls the session back, leaving the table unchanged);
`closed` is still false here because `finally` has not run yet. -/
def insert_termeles_body (commitOk : Bool) (rows : List Termeles)
    (datum arany ezust gyemant : Value) : TermelesInsertOutcome :=
  match datum, arany, ezust, gyemant with
  | .str d, .int a, .int e, .float g =>
    match strptimeYmd d with
    | none =>
      -- strptime raised ValueError; except ValueError returns the message set
      { result := .validationReturn
          ("Validation error: time data does not match format"),
        rows := rows, closed := false }
    | some (ev, honap, nap) =>
      match check_value (.int a), check_value (.int e), check_value (.float g) with
      | .ok _, .ok _, .ok _ =>
        if commitOk then
          { result := .ok,
            rows := rows ++ [{ id := nextTermelesId rows, ev := ev, honap := honap,
                               nap := nap, aranytermeles := a, ezusttermeles := e,
                               gyemanttermeles := g }],
            closed := false }
        else
          -- SQLAlchemyError at commit: rollback, raise Exception
          { result := .raisedError "Database error: commit failed",
            rows := rows, closed := false }
      | _, _, _ =>
        -- check_value raised ValueError(DATA_MUST_BE_POSITIVE)
        { result := .validationReturn ("Validation error: " ++ DATA_MUST_BE_POSITIVE),
          rows := rows, closed := false }
  | _, _, _, _ =>
    { result := .validationReturn
        ("Validation error: " ++ (termelesTypeError datum arany ezust gyemant).getD ""),
      rows := rows, closed := false }

/-- `DatabaseHandler.insert_termeles`: body plus `finally: session.close()`. -/
def insert_termeles (commitOk : Bool) (rows : List Termeles)
    (datum arany ezust gyemant : Value) : TermelesInsertOutcome :=
  let o := insert_termeles_body commitOk rows datum arany ezust gyemant
  { o with closed := true }

/-- Result of `DatabaseHandler.insert_dwarf_as_worker`: the source raises
`HTTPException(400, DATA_MUST_BE_POSITIVE)` on any `ValueError` (wrong type,
unparseable date, or negative value) and `Exception(f"Database error: {e}")`
on `SQLAlchemyError`. -/
inductive DwarfInsertResult where
  | ok
  | raisedHttp (status : Nat) (detail : String)
  | raisedError (msg : String)
deriving DecidableEq, Repr

structure DwarfInsertOutcome where
  result : DwarfInsertResult
  rows : List DwarfsAsWorkers
  closed : Bool
deriving DecidableEq, Repr

/-- The `try` block of `insert_dwarf_as_worker` with its `except` clauses
(`except ValueError` raises `HTTPException(400, DATA_MUST_BE_POSITIVE)`,
discarding the original message); `finally` has not run yet. -/
def insert_dwarf_as_worker_body (commitOk : Bool) (rows : List DwarfsAsWorkers)
    (name datum gold silver diamond : Value) : DwarfInsertOutcome :=
  match name, datum, gold, silver, diamond with
  | .str nm, .str d, .int g, .int s, .float di =>
    match strptimeYmd d with
    | none =>
      { result := .raisedHttp 400 DATA_MUST_BE_POSITIVE, rows := rows, closed := false }
    | some date =>
      match check_value (.int g), check_value (.int s), check_value (.float di) with
      | .ok _, .ok _, .ok _ =>
        if commitOk then
          { result := .ok,
            rows := rows ++ [{ id := nextDwarfId rows, name := nm, date := date,
                               gold := g, silver := s, diamond := di }],
            closed := false }
        else
          { result := .raisedError "Database error: commit failed",
            rows := rows, closed := false }
      | _, _, _ =>
        { result := .raisedHttp 400 DATA_MUST_BE_POSITIVE, rows := rows, closed := false }
  | _, _, _, _, _ =>
    -- a failing isinstance check raises ValueError, mapped to the same 400
    { result := .raisedHttp 400 DATA_MUST_BE_POSITIVE, rows := rows, closed := false }

/-- `DatabaseHandler.insert_dwarf_as_worker`: body plus `finally: session.close()`. -/
def insert_dwarf_as_worker (commitOk : Bool) (rows : List DwarfsAsWorkers)
    (name datum gold silver diamond : Value) : DwarfInsertOutcome :=
  let o := insert_dwarf_as_worker_body commitOk rows name datum gold silver diamond
  { o with closed := true }

/-- An HTTP response of an endpoint: a normal JSON message or an
`HTTPException` with a status code and detail. -/
inductive HttpResponse where
  | ok (message : String)
  | error (status : Nat) (detail : String)
deriving DecidableEq, Repr

structure SubmitOutcome where
  response : HttpResponse
  rows : List Termeles
deriving DecidableEq, Repr

/-- `POST /submit` handler `submit_data` (after FastAPI form decoding, so the
arguments carry the annotated types). It calls `insert_termeles`, IGNORES its
return value (both success and the validation-return return normally), then
re-checks the quantities for negativity and raises `HTTPException(500)` on a
negative one; `except Exception` re-raises anything raised as a 500. -/
def submit_data (commitOk : Bool) (rows : List Termeles)
    (datum : String) (arany ezust : Int) (gyemant : ℚ) : SubmitOutcome :=
  let o := insert_termeles commitOk rows (.str datum) (.int arany) (.int ezust)
    (.float gyemant)
  match o.result with
  | .raisedError m => { response := .error 500 m, rows := o.rows }
  | _ =>
    if arany < 0 ∨ ezust < 0 ∨ gyemant < 0 then
      { response := .error 500 DATA_MUST_BE_POSITIVE, rows := o.rows }
    else
      { response := .ok "Data inserted successfully!", rows := o.rows }

structure DwarfSubmitOutcome where
  response : HttpResponse
  rows : List DwarfsAsWorkers
deriving DecidableEq, Repr

/-- The Python comparison `v < 0` on a runtime value (`none` = `TypeError`). -/
def pyLtZero : Value → Option Bool
  | .int n => some (n < 0)
  | .float q => some (q < 0)
  | .str _ => none

/-- `POST /submit-dwarf` handler `submit_dwarf`, over the runtime values it
passes on. It calls `insert_dwarf_as_worker` (whose `HTTPException(400)` is an
`Exception` and is therefore caught by the handler's `except Exception` clause
and re-raised as a 500 with `str(e)` as detail), then redundantly re-runs
`check_value` on the three quantities and re-checks them for negativity. -/
def submit_dwarf (commitOk : Bool) (rows : List DwarfsAsWorkers)
    (name datum gold silver diamond : Value) : DwarfSubmitOutcome :=
  let o := insert_dwarf_as_worker commitOk rows name datum gold silver diamond
  match o.result with
  | .raisedHttp s d => { response := .error 500 (toString s ++ ": " ++ d), rows := o.rows }
  | .raisedError m => { response := .error 500 m, rows := o.rows }
  | .ok =>
    match check_value gold, check_value silver, check_value diamond with
    | .ok _, .ok _, .ok _ =>
      match pyLtZero gold, pyLtZero silver, pyLtZero diamond with
      | some gn, some sn, some dn =>
        if gn ∨ sn ∨ dn then
          { response := .error 500 DATA_MUST_BE_POSITIVE, rows := o.rows }
        else
          { response := .ok "Dwarf data inserted successfully!", rows := o.rows }
      | _, _, _ => { response := .error 500 "TypeError", rows := o.rows }
    | _, _, _ => { response := .error 500 DATA_MUST_BE_POSITIVE, rows := o.rows }

/-- One step of scanning for the row with the greatest key. -/
def latestStep {α : Type} (key : α → Nat) (acc : Option α) (r : α) : Option α :=
  match acc with
  | none => some r
  | some b => if key b < key r then some r else some b

/-- `.order_by(id.desc()).first()`: the row with the greatest key, if any. -/
def latestBy {α : Type} (key : α → Nat) (rows : List α) : Option α :=
  rows.foldl (latestStep key) none

inductive ProdQueryResult where
  | ok (arany ezust : Int) (gyemant : ℚ)
  | httpError (status : Nat) (detail : String)
deriving DecidableEq, Repr

structure ProdQueryOutcome where
  result : ProdQueryResult
  closed : Bool
deriving DecidableEq, Repr

/-- `GET /query_last_production_data` handler `query_production_data`. -/
def query_production_data (rows : List Termeles) : ProdQueryOutcome :=
  let body : ProdQueryOutcome :=
    match latestBy Termeles.id rows with
    | none => { result := .httpError 404 NO_DATA, closed := false }
    | some r =>
      { result := .ok r.aranytermeles r.ezusttermeles r.gyemanttermeles, closed := false }
  { body with closed := true }

inductive DwarfQueryResult where
  | ok (gold silver : Int) (diamond : ℚ)
  | httpError (status : Nat) (detail : String)
deriving DecidableEq, Repr

structure DwarfQueryOutcome where
  result : DwarfQueryResult
  closed : Bool
deriving DecidableEq, Repr

/-- `GET /query_latest_dwarf_data` handler `query_dwarf_data`. -/
def query_dwarf_data (rows : List DwarfsAsWorkers) : DwarfQueryOutcome :=
  let body : DwarfQueryOutcome :=
    match latestBy DwarfsAsWorkers.id rows with
    | none => { result := .httpError 404 NO_DATA, closed := false }
    | some r => { result := .ok r.gold r.silver r.diamond, closed := false }
  { body with closed := true }

/-- The CSV document written for the `termeles` table: the fixed header row,
then one row per record (`writer.writerow` emits the record's fields in
declared column order). -/
structure TermelesCsv where
  header : List String
  dataRows : List Termeles
deriving DecidableEq, Repr

inductive TermelesExportResult where
  | file (csv : TermelesCsv)
  | httpError (status : Nat) (detail : String)
deriving DecidableEq, Repr

structure TermelesExportOutcome where
  result : TermelesExportResult
  closed : Bool
deriving DecidableEq, Repr

/-- `GET /export-csv-termeles` handler `export_csv_termeles`. The unordered
`query(Termeles).all()` returns the rows in stored (rowid) order. -/
def export_csv_termeles (rows : List Termeles) : TermelesExportOutcome :=
  let body : TermelesExportOutcome :=
    if rows.isEmpty then { result := .httpError 404 NO_DATA, closed := false }
    else
      { result := .file
          { header := ["ID", "Év", "Hónap", "Nap", "Aranytermelés",
                       "Ezüsttermelés", "Gyémánttermelés"],
            dataRows := rows },
        closed := false }
  { body with closed := true }

structure DwarfCsv where
  header : List String
  dataRows : List DwarfsAsWorkers
deriving DecidableEq, Repr

inductive DwarfExportResult where
  | file (csv : DwarfCsv)
  | httpError (status : Nat) (detail : String)
deriving DecidableEq, Repr

structure DwarfExportOutcome where
  result : DwarfExportResult
  closed : Bool
deriving DecidableEq, Repr

/-- `GET /export-csv-dwarf` handler `export_csv_dwarf`. -/
def export_csv_dwarf (rows : List DwarfsAsWorkers) : DwarfExportOutcome :=
  let body : DwarfExportOutcome :=
    if rows.isEmpty then { result := .httpError 404 NO_DATA, closed := false }
    else
      { result := .file
          { header := ["ID", "Name", "Date", "Gold", "Silver", "Diamond"],
            dataRows := rows },
        closed := false }
  { body with closed := true }

/-- Chronological order on `termeles` rows: `ORDER BY ev, honap, nap`. -/
def chronoLE (a b : Termeles) : Prop :=
  a.ev < b.ev ∨ (a.ev = b.ev ∧ (a.honap < b.honap ∨ (a.honap = b.honap ∧ a.nap ≤ b.nap)))

instance : DecidableRel chronoLE := fun a b => by
  unfold chronoLE; infer_instance

instance : IsTotal Termeles chronoLE :=
  ⟨by intro a b; unfold chronoLE; omega⟩

instance : IsTrans Termeles chronoLE :=
  ⟨by intro a b c hab hbc; unfold chronoLE at hab hbc ⊢; omega⟩

/-- Python's `f"{n:02d}"` for a natural number. -/
def pad2 (n : Nat) : String := if n < 10 then "0" ++ toString n else toString n

/-- `f"{r.ev}-{r.honap:02d}-{r.nap:02d}"`. -/
def fmtDate (r : Termeles) : String :=
  toString r.ev ++ "-" ++ pad2 r.honap ++ "-" ++ pad2 r.nap

/-- The data handed to matplotlib: the x-axis labels and the three series. -/
structure PlotPng where
  dates : List String
  arany : List Int
  ezust : List Int
  gyemant : List ℚ
deriving DecidableEq, Repr

inductive PlotResult where
  | file (png : PlotPng)
  | httpError (status : Nat) (detail : String)
deriving DecidableEq, Repr

structure PlotOutcome where
  result : PlotResult
  closed : Bool
deriving DecidableEq, Repr

/-- `GET /plot-data` handler `plot_data`: fetches all `termeles` rows ordered
by `(ev, honap, nap)` ascending (modelled by a stable sort), 404s when there
are none, otherwise plots the three quantity series against the dates. -/
def plot_data (rows : List Termeles) : PlotOutcome :=
  let body : PlotOutcome :=
    let records := List.insertionSort chronoLE rows
    if records.isEmpty then { result := .httpError 404 "No data found", closed := false }
    else
      { result := .file
          { dates := records.map fmtDate,
            arany := records.map Termeles.aranytermeles,
            ezust := records.map Termeles.ezusttermeles,
            gyemant := records.map Termeles.gyemanttermeles },
        closed := false }
  { body with closed := true }

/-- `DATABASE_URL = os.getenv("TEST_DATABASE_URL", "sqlite:///termeles.db")`:
the connection string of the module-level `engine`/`SessionLocal` used by the
query, export, and plot endpoints. -/
def DATABASE_URL (env : Option String) : String := env.getD "sqlite:///termeles.db"

/-- The connection string of the `DatabaseHandler()` constructed inside
`submit_data` and `submit_dwarf`: the default parameter value of
`DatabaseHandler.__init__`, independent of the environment. -/
def handlerDefaultUrl : String := "sqlite:///termeles.db"

/-- The persisted world: one pair of tables per connection string. -/
structure Stores where
  termeles : String → List Termeles
  dwarfs : String → List DwarfsAsWorkers

/-- `POST /submit` at the application level: the handler builds
`DatabaseHandler()` and therefore writes the store at `handlerDefaultUrl`,
whatever the environment says. -/
def submit_data_app (env : Option String) (commitOk : Bool) (st : Stores)
    (datum : String) (arany ezust : Int) (gyemant : ℚ) : HttpResponse × Stores :=
  let url := handlerDefaultUrl
  let o := submit_data commitOk (st.termeles url) datum arany ezust gyemant
  (o.response,
   { st with termeles := fun u => if u = url then o.rows else st.termeles u })

/-- `POST /submit-dwarf` at the application level (same store selection). -/
def submit_dwarf_app (env : Option String) (commitOk : Bool) (st : Stores)
    (name datum gold silver diamond : Value) : HttpResponse × Stores :=
  let url := handlerDefaultUrl
  let o := submit_dwarf commitOk (st.dwarfs url) name datum gold silver diamond
  (o.response,
   { st with dwarfs := fun u => if u = url then o.rows else st.dwarfs u })

/-- `GET /query_last_production_data` at the application level: reads through
the module-level `SessionLocal`, i.e. the store at `DATABASE_URL env`. -/
def query_production_data_app (env : Option String) (st : Stores) : ProdQueryOutcome :=
  query_production_data (st.termeles (DATABASE_URL env))

/-- `GET /query_latest_dwarf_data` at the application level. -/
def query_dwarf_data_app (env : Option String) (st : Stores) : DwarfQueryOutcome :=
  query_dwarf_data (st.dwarfs (DATABASE_URL env))

/-- `GET /export-csv-termeles` at the application level. -/
def export_csv_termeles_app (env : Option String) (st : Stores) : TermelesExportOutcome :=
  export_csv_termeles (st.termeles (DATABASE_URL env))

/-- `GET /export-csv-dwarf` at the application level. -/
def export_csv_dwarf_app (env : Option String) (st : Stores) : DwarfExportOutcome :=
  export_csv_dwarf (st.dwarfs (DATABASE_URL env))

/-- `GET /plot-data` at the application level. -/
def plot_data_app (env : Option String) (st : Stores) : PlotOutcome :=
  plot_data (st.termeles (DATABASE_URL env))

/-! ### Helper lemmas about key folds and the latest-row scan -/

theorem le_foldl_max {α : Type} (key : α → Nat) (rows : List α) :
    ∀ a : Nat, a ≤ rows.foldl (fun m r => max m (key r)) a := by
  induction rows with
  | nil => intro a; simp
  | cons r rs ih =>
    intro a
    simpa using le_trans (Nat.le_max_left a (key r)) (ih (max a (key r)))

theorem key_le_foldl_max {α : Type} (key : α → Nat) (rows : List α) :
    ∀ (a : Nat), ∀ r ∈ rows, key r ≤ rows.foldl (fun m x => max m (key x)) a := by
  induction rows with
  | nil => intro a r hr; cases hr
  | cons x xs ih =>
    intro a r hr
    simp only [List.foldl_cons]
    rcases List.mem_cons.1 hr with h | h
    · subst h; exact le_trans (Nat.le_max_right a (key r)) (le_foldl_max key xs _)
    · exact ih _ r h

theorem key_le_maxKey {α : Type} (key : α → Nat) (rows : List α) (r : α)
    (hr : r ∈ rows) : key r ≤ maxKey key rows :=
  key_le_foldl_max key rows 0 r hr

theorem foldl_latestStep_mem {α : Type} (key : α → Nat) (rows : List α) :
    ∀ (acc : Option α) (b : α), rows.foldl (latestStep key) acc = some b →
      b ∈ rows ∨ acc = some b := by
  induction rows with
  | nil => intro acc b h; exact Or.inr h
  | cons x xs ih =>
    intro acc b h
    simp only [List.foldl_cons] at h
    rcases ih (latestStep key acc x) b h with h1 | h1
    · exact Or.inl (List.mem_cons_of_mem _ h1)
    · cases acc with
      | none =>
        simp only [latestStep, Option.some.injEq] at h1
        exact Or.inl (h1 ▸ List.mem_cons_self x xs)
      | some c =>
        by_cases hkc : key c < key x
        · simp only [latestStep, if_pos hkc, Option.some.injEq] at h1
          exact Or.inl (h1 ▸ List.mem_cons_self x xs)
        · simp only [latestStep, if_neg hkc] at h1
          exact Or.inr h1

theorem latestBy_mem {α : Type} (key : α → Nat) (rows : List α) (b : α)
    (h : latestBy key rows = some b) : b ∈ rows := by
  rcases foldl_latestStep_mem key rows none b h with h1 | h1
  · exact h1
  · simp at h1

theorem foldl_latestStep_isSome {α : Type} (key : α → Nat) (rows : List α) :
    ∀ b : α, (rows.foldl (latestStep key) (some b)).isSome := by
  induction rows with
  | nil => intro b; rfl
  | cons x xs ih =>
    intro b
    simp only [List.foldl_cons, latestStep]
    by_cases h : key b < key x
    · rw [if_pos h]; exact ih x
    · rw [if_neg h]; exact ih b

theorem latestBy_isSome {α : Type} (key : α → Nat) (rows : List α) (h : rows ≠ []) :
    (latestBy key rows).isSome := by
  cases rows with
  | nil => exact absurd rfl h
  | cons x xs => exact foldl_latestStep_isSome key xs x

theorem latestBy_append_singleton {α : Type} (key : α → Nat) (rows : List α) (r : α)
    (h : ∀ x ∈ rows, key x < key r) : latestBy key (rows ++ [r]) = some r := by
  unfold latestBy
  rw [List.foldl_append]
  cases hl : List.foldl (latestStep key) none rows with
  | none => rfl
  | some b =>
    have hb : b ∈ rows := latestBy_mem key rows b hl
    simp only [List.foldl_cons, List.foldl_nil, latestStep, if_pos (h b hb)]

theorem foldl_latestStep_max {α : Type} (key : α → Nat) (rows : List α) :
    ∀ (acc : Option α) (b : α), rows.foldl (latestStep key) acc = some b →
      (∀ r ∈ rows, key r ≤ key b) ∧ (∀ a, acc = some a → key a ≤ key b) := by
  induction rows with
  | nil =>
    intro acc b h
    refine ⟨fun r hr => absurd hr (List.not_mem_nil r), fun a ha => ?_⟩
    rw [ha] at h
    exact le_of_eq (congrArg key (Option.some.inj h))
  | cons x xs ih =>
    intro acc b h
    simp only [List.foldl_cons] at h
    obtain ⟨hall, hacc⟩ := ih (latestStep key acc x) b h
    have hx : key x ≤ key b := by
      cases acc with
      | none => exact hacc x rfl
      | some c =>
        by_cases hc : key c < key x
        · exact hacc x (by simp [latestStep, if_pos hc])
        · exact le_trans (Nat.le_of_not_lt hc) (hacc c (by simp [latestStep, if_neg hc]))
    refine ⟨fun r hr => ?_, fun a ha => ?_⟩
    · rcases List.mem_cons.1 hr with h' | h'
      · exact h' ▸ hx
      · exact hall r h'
    · cases acc with
      | none => simp at ha
      | some c =>
        have hca : c = a := Option.some.inj ha
        by_cases hc : key c < key x
        · exact hca ▸ le_trans (le_of_lt hc) hx
        · exact hca ▸ hacc c (by simp [latestStep, if_neg hc])

theorem latestBy_is_max {α : Type} (key : α → Nat) (rows : List α) (b : α)
    (h : latestBy key rows = some b) : ∀ r ∈ rows, key r ≤ key b :=
  (foldl_latestStep_max key rows none b h).1

/-! ### Characterisation of the two insert operations -/

/-- A runtime value that is a negative number. -/
def valueNeg : Value → Prop
  | .int n => n < 0
  | .float q => q < 0
  | .str _ => False

instance : DecidablePred valueNeg := fun v => by
  cases v <;> unfold valueNeg <;> infer_instance

theorem insert_termeles_success (rows : List Termeles) (d : String) (a e : Int)
    (g : ℚ) (y m n : Nat) (hd : strptimeYmd d = some (y, m, n))
    (ha : 0 ≤ a) (he : 0 ≤ e) (hg : 0 ≤ g) :
    insert_termeles true rows (.str d) (.int a) (.int e) (.float g) =
      { result := .ok,
        rows := rows ++ [{ id := nextTermelesId rows, ev := y, honap := m, nap := n,
                           aranytermeles := a, ezusttermeles := e,
                           gyemanttermeles := g }],
        closed := true } := by
  simp [insert_termeles, insert_termeles_body, hd, check_value,
    not_lt.2 ha, not_lt.2 he, not_lt.2 hg]

theorem insert_termeles_rows_or (commitOk : Bool) (rows : List Termeles)
    (datum arany ezust gyemant : Value) :
    (insert_termeles commitOk rows datum arany ezust gyemant).rows = rows ∨
    (insert_termeles commitOk rows datum arany ezust gyemant).result = .ok := by
  unfold insert_termeles insert_termeles_body
  split
  · split
    · left; rfl
    · split
      · split
        · right; rfl
        · left; rfl
      · left; rfl
  · left; rfl

theorem insert_termeles_not_ok (commitOk : Bool) (rows : List Termeles)
    (datum arany ezust gyemant : Value)
    (h : (insert_termeles commitOk rows datum arany ezust gyemant).result ≠ .ok) :
    (insert_termeles commitOk rows datum arany ezust gyemant).rows = rows :=
  (insert_termeles_rows_or commitOk rows datum arany ezust gyemant).resolve_right h

theorem insert_termeles_neg (commitOk : Bool) (rows : List Termeles)
    (datum arany ezust gyemant : Value)
    (h : valueNeg arany ∨ valueNeg ezust ∨ valueNeg gyemant) :
    ∃ msg, (insert_termeles commitOk rows datum arany ezust gyemant).result =
      .validationReturn msg := by
  rcases datum with n0 | q0 | d <;> rcases arany with a | qa | sa <;>
    rcases ezust with e | qe | se <;> rcases gyemant with ng | g | sg <;>
    simp_all [valueNeg, insert_termeles, insert_termeles_body, check_value] <;>
    rcases hsd : strptimeYmd d with _ | ⟨y, mo, dy⟩ <;>
    simp_all [le_of_lt] <;> split_ifs <;> simp_all

theorem insert_dwarf_success (rows : List DwarfsAsWorkers) (nm d : String)
    (g s : Int) (di : ℚ) (y m n : Nat) (hd : strptimeYmd d = some (y, m, n))
    (hg : 0 ≤ g) (hs : 0 ≤ s) (hdi : 0 ≤ di) :
    insert_dwarf_as_worker true rows (.str nm) (.str d) (.int g) (.int s) (.float di) =
      { result := .ok,
        rows := rows ++ [{ id := nextDwarfId rows, name := nm, date := (y, m, n),
                           gold := g, silver := s, diamond := di }],
        closed := true } := by
  simp [insert_dwarf_as_worker, insert_dwarf_as_worker_body, hd, check_value,
    not_lt.2 hg, not_lt.2 hs, not_lt.2 hdi]

theorem insert_dwarf_rows_or (commitOk : Bool) (rows : List DwarfsAsWorkers)
    (name datum gold silver diamond : Value) :
    (insert_dwarf_as_worker commitOk rows name datum gold silver diamond).rows = rows ∨
    (insert_dwarf_as_worker commitOk rows name datum gold silver diamond).result = .ok := by
  unfold insert_dwarf_as_worker insert_dwarf_as_worker_body
  split
  · split
    · left; rfl
    · split
      · split
        · right; rfl
        · left; rfl
      · left; rfl
  · left; rfl

theorem insert_dwarf_not_ok (commitOk : Bool) (rows : List DwarfsAsWorkers)
    (name datum gold silver diamond : Value)
    (h : (insert_dwarf_as_worker commitOk rows name datum gold silver diamond).result
      ≠ .ok) :
    (insert_dwarf_as_worker commitOk rows name datum gold silver diamond).rows = rows :=
  (insert_dwarf_rows_or commitOk rows name datum gold silver diamond).resolve_right h

theorem insert_dwarf_neg (commitOk : Bool) (rows : List DwarfsAsWorkers)
    (name datum gold silver diamond : Value)
    (h : valueNeg gold ∨ valueNeg silver ∨ valueNeg diamond) :
    (insert_dwarf_as_worker commitOk rows name datum gold silver diamond).result =
      .raisedHttp 400 DATA_MUST_BE_POSITIVE := by
  rcases name with n0 | q0 | nm <;> rcases datum with n1 | q1 | d <;>
    rcases gold with g | qg | sg <;> rcases silver with s | qs | ss <;>
    rcases diamond with nd | di | sd <;>
    simp_all [valueNeg, insert_dwarf_as_worker, insert_dwarf_as_worker_body,
      check_value] <;>
    rcases hsd : strptimeYmd d with _ | ⟨y, mo, dy⟩ <;>
    simp_all [le_of_lt] <;> split_ifs <;> simp_all

theorem insert_termeles_type_error (commitOk : Bool) (rows : List Termeles)
    (datum arany ezust gyemant : Value)
    (h : datum.isStr = false ∨ arany.isInt = false ∨ ezust.isInt = false ∨
      gyemant.isFloat = false) :
    (∃ msg, (insert_termeles commitOk rows datum arany ezust gyemant).result =
      .validationReturn msg) ∧
    (insert_termeles commitOk rows datum arany ezust gyemant).rows = rows := by
  rcases datum with n0 | q0 | d <;> rcases arany with a | qa | sa <;>
    rcases ezust with e | qe | se <;> rcases gyemant with ng | g | sg <;>
    simp_all [Value.isStr, Value.isInt, Value.isFloat,
      insert_termeles, insert_termeles_body]

theorem insert_dwarf_type_error (commitOk : Bool) (rows : List DwarfsAsWorkers)
    (name datum gold silver diamond : Value)
    (h : name.isStr = false ∨ datum.isStr = false ∨ gold.isInt = false ∨
      silver.isInt = false ∨ diamond.isFloat = false) :
    (insert_dwarf_as_worker commitOk rows name datum gold silver diamond).result =
      .raisedHttp 400 DATA_MUST_BE_POSITIVE ∧
    (insert_dwarf_as_worker commitOk rows name datum gold silver diamond).rows = rows := by
  rcases name with n0 | q0 | nm <;> rcases datum with n1 | q1 | d <;>
    rcases gold with g | qg | sg <;> rcases silver with s | qs | ss <;>
    rcases diamond with nd | di | sd <;>
    simp_all [Value.isStr, Value.isInt, Value.isFloat,
      insert_dwarf_as_worker, insert_dwarf_as_worker_body]

/-! ### Sequences of successful inserts through the HTTP surface -/

/-- A decoded `POST /submit` form (the FastAPI-annotated types). -/
structure SubmitForm where
  datum : String
  arany : Int
  ezust : Int
  gyemant : ℚ
deriving DecidableEq, Repr

/-- A valid aggregate input: parseable date and non-negative quantities. -/
def SubmitForm.valid (i : SubmitForm) : Prop :=
  (strptimeYmd i.datum).isSome = true ∧ 0 ≤ i.arany ∧ 0 ≤ i.ezust ∧ 0 ≤ i.gyemant

instance (i : SubmitForm) : Decidable i.valid := by
  unfold SubmitForm.valid; infer_instance

/-- A decoded `POST /submit-dwarf` form. -/
structure DwarfForm where
  name : String
  datum : String
  gold : Int
  silver : Int
  diamond : ℚ
deriving DecidableEq, Repr

/-- A valid worker input: parseable date and non-negative quantities. -/
def DwarfForm.valid (i : DwarfForm) : Prop :=
  (strptimeYmd i.datum).isSome = true ∧ 0 ≤ i.gold ∧ 0 ≤ i.silver ∧ 0 ≤ i.diamond

instance (i : DwarfForm) : Decidable i.valid := by
  unfold DwarfForm.valid; infer_instance

/-- The table state after one `insert_termeles` call on a decoded form. -/
def insertTermelesStep (rows : List Termeles) (i : SubmitForm) : List Termeles :=
  (insert_termeles true rows (.str i.datum) (.int i.arany) (.int i.ezust)
    (.float i.gyemant)).rows

/-- The `termeles` table built by a sequence of inserts starting from empty. -/
def insertManyTermeles (l : List SubmitForm) : List Termeles :=
  l.foldl insertTermelesStep []

/-- The table state after one `insert_dwarf_as_worker` call on a decoded form. -/
def insertDwarfStep (rows : List DwarfsAsWorkers) (i : DwarfForm) :
    List DwarfsAsWorkers :=
  (insert_dwarf_as_worker true rows (.str i.name) (.str i.datum) (.int i.gold)
    (.int i.silver) (.float i.diamond)).rows

/-- The `dwarf_as_workers` table built by a sequence of inserts from empty. -/
def insertManyDwarfs (l : List DwarfForm) : List DwarfsAsWorkers :=
  l.foldl insertDwarfStep []

theorem insert_termeles_shape (commitOk : Bool) (rows : List Termeles)
    (datum arany ezust gyemant : Value) :
    (insert_termeles commitOk rows datum arany ezust gyemant).rows = rows ∨
    ∃ row, row.id = nextTermelesId rows ∧
      (insert_termeles commitOk rows datum arany ezust gyemant).rows = rows ++ [row] := by
  unfold insert_termeles insert_termeles_body
  split
  · split
    · left; rfl
    · split
      · split
        · right; exact ⟨_, rfl, rfl⟩
        · left; rfl
      · left; rfl
  · left; rfl

theorem insert_dwarf_shape (commitOk : Bool) (rows : List DwarfsAsWorkers)
    (name datum gold silver diamond : Value) :
    (insert_dwarf_as_worker commitOk rows name datum gold silver diamond).rows = rows ∨
    ∃ row, row.id = nextDwarfId rows ∧
      (insert_dwarf_as_worker commitOk rows name datum gold silver diamond).rows =
        rows ++ [row] := by
  unfold insert_dwarf_as_worker insert_dwarf_as_worker_body
  split
  · split
    · left; rfl
    · split
      · split
        · right; exact ⟨_, rfl, rfl⟩
        · left; rfl
      · left; rfl
  · left; rfl

theorem insertTermelesStep_valid (rows : List Termeles) (i : SubmitForm)
    (h : i.valid) :
    ∃ y m n, strptimeYmd i.datum = some (y, m, n) ∧
      insertTermelesStep rows i =
        rows ++ [{ id := nextTermelesId rows, ev := y, honap := m, nap := n,
                   aranytermeles := i.arany, ezusttermeles := i.ezust,
                   gyemanttermeles := i.gyemant }] := by
  obtain ⟨hs, ha, he, hg⟩ := h
  obtain ⟨⟨y, m, n⟩, hd⟩ := Option.isSome_iff_exists.1 hs
  exact ⟨y, m, n, hd, by
    simp [insertTermelesStep, insert_termeles_success rows _ _ _ _ y m n hd ha he hg]⟩

theorem insertDwarfStep_valid (rows : List DwarfsAsWorkers) (i : DwarfForm)
    (h : i.valid) :
    ∃ y m n, strptimeYmd i.datum = some (y, m, n) ∧
      insertDwarfStep rows i =
        rows ++ [{ id := nextDwarfId rows, name := i.name, date := (y, m, n),
                   gold := i.gold, silver := i.silver, diamond := i.diamond }] := by
  obtain ⟨hs, hg, hsil, hdi⟩ := h
  obtain ⟨⟨y, m, n⟩, hd⟩ := Option.isSome_iff_exists.1 hs
  exact ⟨y, m, n, hd, by
    simp [insertDwarfStep, insert_dwarf_success rows _ _ _ _ _ y m n hd hg hsil hdi]⟩

theorem query_after_insertTermelesStep (rows : List Termeles) (i : SubmitForm)
    (h : i.valid) :
    (query_production_data (insertTermelesStep rows i)).result =
      .ok i.arany i.ezust i.gyemant := by
  obtain ⟨y, m, n, _, hrows⟩ := insertTermelesStep_valid rows i h
  rw [hrows]
  have hlt : ∀ x ∈ rows, Termeles.id x <
      Termeles.id ({ id := nextTermelesId rows, ev := y, honap := m, nap := n,
                     aranytermeles := i.arany, ezusttermeles := i.ezust,
                     gyemanttermeles := i.gyemant } : Termeles) := fun x hx =>
    Nat.lt_succ_of_le (key_le_maxKey Termeles.id rows x hx)
  simp [query_production_data, latestBy_append_singleton Termeles.id rows _ hlt]

theorem query_after_insertDwarfStep (rows : List DwarfsAsWorkers) (i : DwarfForm)
    (h : i.valid) :
    (query_dwarf_data (insertDwarfStep rows i)).result =
      .ok i.gold i.silver i.diamond := by
  obtain ⟨y, m, n, _, hrows⟩ := insertDwarfStep_valid rows i h
  rw [hrows]
  have hlt : ∀ x ∈ rows, DwarfsAsWorkers.id x <
      DwarfsAsWorkers.id ({ id := nextDwarfId rows, name := i.name, date := (y, m, n),
                            gold := i.gold, silver := i.silver,
                            diamond := i.diamond } : DwarfsAsWorkers) := fun x hx =>
    Nat.lt_succ_of_le (key_le_maxKey DwarfsAsWorkers.id rows x hx)
  simp [query_dwarf_data, latestBy_append_singleton DwarfsAsWorkers.id rows _ hlt]

theorem chain_append_max {α : Type} (key : α → Nat) (rows : List α) (r : α)
    (hc : List.Chain' (fun a b => key a < key b) rows)
    (hr : ∀ x ∈ rows, key x < key r) :
    List.Chain' (fun a b => key a < key b) (rows ++ [r]) := by
  rw [List.chain'_append]
  refine ⟨hc, List.chain'_singleton r, ?_⟩
  intro x hx y hy
  have hxm : x ∈ rows := by
    obtain ⟨hne, rfl⟩ := List.mem_getLast?_eq_getLast hx
    exact rows.getLast_mem hne
  have hyr : y = r := by
    simp only [List.head?_cons, Option.mem_def, Option.some.injEq] at hy
    exact hy.symm
  exact hyr ▸ hr x hxm

theorem chain_foldl_insertTermeles (l : List SubmitForm) :
    ∀ rows : List Termeles, List.Chain' (fun a b => a.id < b.id) rows →
      List.Chain' (fun a b => a.id < b.id) (l.foldl insertTermelesStep rows) := by
  induction l with
  | nil => intro rows h; exact h
  | cons i is ih =>
    intro rows h
    simp only [List.foldl_cons]
    apply ih
    rcases insert_termeles_shape true rows (.str i.datum) (.int i.arany)
        (.int i.ezust) (.float i.gyemant) with hs | ⟨row, hid, hs⟩
    · unfold insertTermelesStep; rw [hs]; exact h
    · unfold insertTermelesStep; rw [hs]
      apply chain_append_max Termeles.id rows row h
      intro x hx
      rw [hid]
      exact Nat.lt_succ_of_le (key_le_maxKey Termeles.id rows x hx)

theorem chain_foldl_insertDwarfs (l : List DwarfForm) :
    ∀ rows : List DwarfsAsWorkers, List.Chain' (fun a b => a.id < b.id) rows →
      List.Chain' (fun a b => a.id < b.id) (l.foldl insertDwarfStep rows) := by
  induction l with
  | nil => intro rows h; exact h
  | cons i is ih =>
    intro rows h
    simp only [List.foldl_cons]
    apply ih
    rcases insert_dwarf_shape true rows (.str i.name) (.str i.datum) (.int i.gold)
        (.int i.silver) (.float i.diamond) with hs | ⟨row, hid, hs⟩
    · unfold insertDwarfStep; rw [hs]; exact h
    · unfold insertDwarfStep; rw [hs]
      apply chain_append_max DwarfsAsWorkers.id rows row h
      intro x hx
      rw [hid]
      exact Nat.lt_succ_of_le (key_le_maxKey DwarfsAsWorkers.id rows x hx)

theorem query_production_404_iff (rows : List Termeles) :
    (query_production_data rows).result = .httpError 404 NO_DATA ↔ rows = [] := by
  constructor
  · intro h
    by_contra hne
    have hs := latestBy_isSome Termeles.id rows hne
    cases hl : latestBy Termeles.id rows with
    | none => rw [hl] at hs; exact absurd hs (by simp)
    | some r => simp [query_production_data, hl] at h
  · intro h; subst h; rfl

theorem query_dwarf_404_iff (rows : List DwarfsAsWorkers) :
    (query_dwarf_data rows).result = .httpError 404 NO_DATA ↔ rows = [] := by
  constructor
  · intro h
    by_contra hne
    have hs := latestBy_isSome DwarfsAsWorkers.id rows hne
    cases hl : latestBy DwarfsAsWorkers.id rows with
    | none => rw [hl] at hs; exact absurd hs (by simp)
    | some r => simp [query_dwarf_data, hl] at h
  · intro h; subst h; rfl

/-! ### Claim theorems -/

/-- C1 (code bug): the claim — and the handlers' own docstrings — say that a
`POST /submit` whose `datum` does not parse as `YYYY-MM-DD` yields a 500 error.
The code instead swallows the `ValueError` inside `insert_termeles` (which
RETURNS a message set instead of raising) and, the quantities being
non-negative, `submit_data` answers 200 with the success message; no row is
added. Evaluated here at the failing input `datum = "03-01-2025"`,
`arany = 1`, `ezust = 2`, `gyemant = 1`. -/
theorem c1_code_divergence :
    (submit_data true [] "03-01-2025" 1 2 1).response =
      .ok "Data inserted successfully!" ∧
    (submit_data true [] "03-01-2025" 1 2 1).rows = [] := by
  constructor <;> decide

/-- The stores before any request. -/
def emptyStores : Stores :=
  { termeles := fun _ => [], dwarfs := fun _ => [] }

/-- C2 (counterexample): with the environment connection string set to
`sqlite:///:memory:`, a successful insert through `POST /submit` lands in the
`DatabaseHandler()` default store, and the query endpoint — reading through the
module-level `SessionLocal` bound to the environment store — does NOT observe
the record: it answers 404. This refutes the claim that all operations share
the environment-selected store. -/
theorem c2_counterexample :
    (submit_data_app (some "sqlite:///:memory:") true emptyStores
        "2025-01-04" 1 2 1).1 = .ok "Data inserted successfully!" ∧
    (query_production_data_app (some "sqlite:///:memory:")
        (submit_data_app (some "sqlite:///:memory:") true emptyStores
          "2025-01-04" 1 2 1).2).result = .httpError 404 NO_DATA := by
  constructor <;> decide

theorem submit_data_rows (commitOk : Bool) (rows : List Termeles) (datum : String)
    (arany ezust : Int) (gyemant : ℚ) :
    (submit_data commitOk rows datum arany ezust gyemant).rows =
      (insert_termeles commitOk rows (.str datum) (.int arany) (.int ezust)
        (.float gyemant)).rows := by
  simp only [submit_data]
  split
  · rfl
  · split_ifs <;> rfl

theorem submit_dwarf_rows (commitOk : Bool) (rows : List DwarfsAsWorkers)
    (name datum gold silver diamond : Value) :
    (submit_dwarf commitOk rows name datum gold silver diamond).rows =
      (insert_dwarf_as_worker commitOk rows name datum gold silver diamond).rows := by
  simp only [submit_dwarf]
  split
  · rfl
  · rfl
  · split
    · split
      · split_ifs <;> rfl
      · rfl
    · rfl

/-- C2 (amended): the query/export/plot endpoints read the store named by
`TEST_DATABASE_URL` (default `sqlite:///termeles.db`), but `POST /submit` and
`POST /submit-dwarf` build `DatabaseHandler()` with the hardcoded default, so
all operations touch the same store iff the environment variable is unset or
set to that default; when it is unset, an insert through the HTTP surface is
observed by the corresponding query endpoint. -/
theorem c2_amended :
    (∀ env : Option String,
        handlerDefaultUrl = DATABASE_URL env ↔
          env = none ∨ env = some "sqlite:///termeles.db") ∧
    (∀ (st : Stores) (datum : String) (arany ezust : Int) (gyemant : ℚ),
        (SubmitForm.mk datum arany ezust gyemant).valid →
        (query_production_data_app none
            (submit_data_app none true st datum arany ezust gyemant).2).result =
          .ok arany ezust gyemant) ∧
    (∀ (st : Stores) (name datum : String) (gold silver : Int) (diamond : ℚ),
        (DwarfForm.mk name datum gold silver diamond).valid →
        (query_dwarf_data_app none
            (submit_dwarf_app none true st (.str name) (.str datum) (.int gold)
              (.int silver) (.float diamond)).2).result =
          .ok gold silver diamond) := by
  refine ⟨?_, ?_, ?_⟩
  · intro env
    cases env with
    | none => simp [handlerDefaultUrl, DATABASE_URL]
    | some s =>
      simp only [handlerDefaultUrl, DATABASE_URL, Option.getD_some]
      constructor
      · intro h; exact Or.inr (by rw [h])
      · rintro (h | h)
        · cases h
        · cases h; rfl
  · intro st datum arany ezust gyemant hv
    show (query_production_data
      ((submit_data_app none true st datum arany ezust gyemant).2.termeles
        (DATABASE_URL none))).result = _
    have h2 : (submit_data_app none true st datum arany ezust gyemant).2.termeles
        (DATABASE_URL none) =
        (submit_data true (st.termeles handlerDefaultUrl) datum arany ezust
          gyemant).rows := by
      show (if DATABASE_URL none = handlerDefaultUrl
            then (submit_data true (st.termeles handlerDefaultUrl) datum arany ezust
              gyemant).rows
            else st.termeles (DATABASE_URL none)) =
          (submit_data true (st.termeles handlerDefaultUrl) datum arany ezust
            gyemant).rows
      rw [if_pos (show DATABASE_URL none = handlerDefaultUrl from rfl)]
    rw [h2, submit_data_rows]
    exact query_after_insertTermelesStep (st.termeles handlerDefaultUrl)
      ⟨datum, arany, ezust, gyemant⟩ hv
  · intro st name datum gold silver diamond hv
    show (query_dwarf_data
      ((submit_dwarf_app none true st (.str name) (.str datum) (.int gold)
          (.int silver) (.float diamond)).2.dwarfs (DATABASE_URL none))).result = _
    have h2 : (submit_dwarf_app none true st (.str name) (.str datum) (.int gold)
        (.int silver) (.float diamond)).2.dwarfs (DATABASE_URL none) =
        (submit_dwarf true (st.dwarfs handlerDefaultUrl) (.str name) (.str datum)
          (.int gold) (.int silver) (.float diamond)).rows := by
      show (if DATABASE_URL none = handlerDefaultUrl
            then (submit_dwarf true (st.dwarfs handlerDefaultUrl) (.str name)
              (.str datum) (.int gold) (.int silver) (.float diamond)).rows
            else st.dwarfs (DATABASE_URL none)) =
          (submit_dwarf true (st.dwarfs handlerDefaultUrl) (.str name) (.str datum)
            (.int gold) (.int silver) (.float diamond)).rows
      rw [if_pos (show DATABASE_URL none = handlerDefaultUrl from rfl)]
    rw [h2, submit_dwarf_rows]
    exact query_after_insertDwarfStep (st.dwarfs handlerDefaultUrl)
      ⟨name, datum, gold, silver, diamond⟩ hv

/-- Witness for C2 (amended) at `env = none` and a concrete valid insert. -/
theorem c2_amended_witness :
    (handlerDefaultUrl = DATABASE_URL none ↔
      (none : Option String) = none ∨
      (none : Option String) = some "sqlite:///termeles.db") ∧
    (query_production_data_app none
        (submit_data_app none true emptyStores "2025-01-04" 1 2 1).2).result =
      .ok 1 2 1 :=
  ⟨c2_amended.1 none,
   c2_amended.2.1 emptyStores "2025-01-04" 1 2 1 (by decide)⟩

/-- C3: a negative quantity makes either insert fail validation with the table
unchanged, and more generally any non-success outcome of either insert leaves
the table row count unchanged (full rollback, no partial write). -/
theorem c3_no_partial_writes :
    ∀ commitOk : Bool,
      (∀ (rows : List Termeles) (datum arany ezust gyemant : Value),
        ((valueNeg arany ∨ valueNeg ezust ∨ valueNeg gyemant) →
          (∃ msg, (insert_termeles commitOk rows datum arany ezust gyemant).result =
            .validationReturn msg) ∧
          (insert_termeles commitOk rows datum arany ezust gyemant).rows = rows) ∧
        ((insert_termeles commitOk rows datum arany ezust gyemant).result ≠ .ok →
          (insert_termeles commitOk rows datum arany ezust gyemant).rows = rows)) ∧
      (∀ (rows : List DwarfsAsWorkers) (name datum gold silver diamond : Value),
        ((valueNeg gold ∨ valueNeg silver ∨ valueNeg diamond) →
          (insert_dwarf_as_worker commitOk rows name datum gold silver
            diamond).result = .raisedHttp 400 DATA_MUST_BE_POSITIVE ∧
          (insert_dwarf_as_worker commitOk rows name datum gold silver
            diamond).rows = rows) ∧
        ((insert_dwarf_as_worker commitOk rows name datum gold silver
            diamond).result ≠ .ok →
          (insert_dwarf_as_worker commitOk rows name datum gold silver
            diamond).rows = rows)) := by
  intro commitOk
  refine ⟨fun rows datum arany ezust gyemant => ⟨fun h => ?_, fun h =>
      insert_termeles_not_ok commitOk rows datum arany ezust gyemant h⟩,
    fun rows name datum gold silver diamond => ⟨fun h => ?_, fun h =>
      insert_dwarf_not_ok commitOk rows name datum gold silver diamond h⟩⟩
  · obtain ⟨msg, hm⟩ := insert_termeles_neg commitOk rows datum arany ezust gyemant h
    exact ⟨⟨msg, hm⟩,
      insert_termeles_not_ok commitOk rows datum arany ezust gyemant
        (by rw [hm]; simp)⟩
  · have hm := insert_dwarf_neg commitOk rows name datum gold silver diamond h
    exact ⟨hm,
      insert_dwarf_not_ok commitOk rows name datum gold silver diamond
        (by rw [hm]; simp)⟩

/-- Witness for C3: inserting `arany = -1` is rejected with the table
unchanged. -/
theorem c3_witness :
    (∃ msg, (insert_termeles true [] (.str "2025-01-03") (.int (-1)) (.int 2)
      (.float 1)).result = .validationReturn msg) ∧
    (insert_termeles true [] (.str "2025-01-03") (.int (-1)) (.int 2)
      (.float 1)).rows = [] :=
  (((c3_no_partial_writes true).1 [] (.str "2025-01-03") (.int (-1)) (.int 2)
    (.float 1)).1) (by decide)

/-- C4 (counterexample): `insert_dwarf_as_worker` accepts the empty worker
name — the insert succeeds and the table reaches a state containing a row
whose name is `""`, refuting the claimed non-empty-name invariant. -/
theorem c4_counterexample :
    (insert_dwarf_as_worker true [] (.str "") (.str "2025-01-03") (.int 1) (.int 1)
      (.float 0)).result = .ok ∧
    (insert_dwarf_as_worker true [] (.str "") (.str "2025-01-03") (.int 1) (.int 1)
      (.float 0)).rows =
      [{ id := 1, name := "", date := (2025, 1, 3), gold := 1, silver := 1,
         diamond := 0 }] := by
  constructor <;> decide

/-- C4 (amended): the worker name is only required to be a string — any name,
including the empty string, is accepted whenever the date parses and the
quantities are non-negative, and the row is persisted with that name. -/
theorem c4_amended (rows : List DwarfsAsWorkers) (name datum : String)
    (gold silver : Int) (diamond : ℚ) (y m n : Nat)
    (hd : strptimeYmd datum = some (y, m, n)) (hg : 0 ≤ gold) (hs : 0 ≤ silver)
    (hdi : 0 ≤ diamond) :
    (insert_dwarf_as_worker true rows (.str name) (.str datum) (.int gold)
      (.int silver) (.float diamond)).result = .ok ∧
    (insert_dwarf_as_worker true rows (.str name) (.str datum) (.int gold)
      (.int silver) (.float diamond)).rows =
      rows ++ [{ id := nextDwarfId rows, name := name, date := (y, m, n),
                 gold := gold, silver := silver, diamond := diamond }] := by
  rw [insert_dwarf_success rows name datum gold silver diamond y m n hd hg hs hdi]
  exact ⟨rfl, rfl⟩

/-- Witness for C4 (amended) at the empty name. -/
theorem c4_amended_witness :
    (insert_dwarf_as_worker true [] (.str "") (.str "2025-01-03") (.int 2) (.int 3)
      (.float 1)).result = .ok ∧
    (insert_dwarf_as_worker true [] (.str "") (.str "2025-01-03") (.int 2) (.int 3)
      (.float 1)).rows =
      [] ++ [{ id := nextDwarfId [], name := "", date := (2025, 1, 3), gold := 2,
               silver := 3, diamond := 1 }] :=
  c4_amended [] "" "2025-01-03" 2 3 1 2025 1 3 (by decide) (by decide) (by decide)
    (by decide)

/-- C5: the latest-record queries answer 404 exactly on the empty table; the
returned row is the one with the greatest identity; after a sequence of
successful inserts the queries return the last inserted record's values. -/
theorem c5_latest_queries :
    (∀ rows : List Termeles,
        (query_production_data rows).result = .httpError 404 NO_DATA ↔ rows = []) ∧
    (∀ rows : List DwarfsAsWorkers,
        (query_dwarf_data rows).result = .httpError 404 NO_DATA ↔ rows = []) ∧
    (∀ (rows : List Termeles) (b : Termeles),
        latestBy Termeles.id rows = some b → b ∈ rows ∧ ∀ r ∈ rows, r.id ≤ b.id) ∧
    (∀ (rows : List DwarfsAsWorkers) (b : DwarfsAsWorkers),
        latestBy DwarfsAsWorkers.id rows = some b →
          b ∈ rows ∧ ∀ r ∈ rows, r.id ≤ b.id) ∧
    (∀ (l : List SubmitForm) (x : SubmitForm),
        (∀ i ∈ l ++ [x], i.valid) →
        (query_production_data (insertManyTermeles (l ++ [x]))).result =
          .ok x.arany x.ezust x.gyemant) ∧
    (∀ (l : List DwarfForm) (x : DwarfForm),
        (∀ i ∈ l ++ [x], i.valid) →
        (query_dwarf_data (insertManyDwarfs (l ++ [x]))).result =
          .ok x.gold x.silver x.diamond) := by
  refine ⟨query_production_404_iff, query_dwarf_404_iff, ?_, ?_, ?_, ?_⟩
  · intro rows b h
    exact ⟨latestBy_mem Termeles.id rows b h, latestBy_is_max Termeles.id rows b h⟩
  · intro rows b h
    exact ⟨latestBy_mem DwarfsAsWorkers.id rows b h,
      latestBy_is_max DwarfsAsWorkers.id rows b h⟩
  · intro l x hall
    unfold insertManyTermeles
    rw [List.foldl_append]
    simp only [List.foldl_cons, List.foldl_nil]
    exact query_after_insertTermelesStep _ x (hall x (by simp))
  · intro l x hall
    unfold insertManyDwarfs
    rw [List.foldl_append]
    simp only [List.foldl_cons, List.foldl_nil]
    exact query_after_insertDwarfStep _ x (hall x (by simp))

/-- Witness for C5: after two sequential inserts the query returns the second
record's values. -/
theorem c5_witness :
    (query_production_data (insertManyTermeles
      ([⟨"2025-01-03", 3, 3, 0⟩] ++ [⟨"2025-01-04", 1, 2, 5⟩]))).result =
      .ok (SubmitForm.mk "2025-01-04" 1 2 5).arany
        (SubmitForm.mk "2025-01-04" 1 2 5).ezust
        (SubmitForm.mk "2025-01-04" 1 2 5).gyemant :=
  c5_latest_queries.2.2.2.2.1 [⟨"2025-01-03", 3, 3, 0⟩] ⟨"2025-01-04", 1, 2, 5⟩
    (by decide)

/-- C6: CSV export of a non-empty table produces the documented fixed header,
one data row per table row in stored order; on reachable (insert-built) tables
the data rows are in strictly increasing identity order; the empty table gives
404, never a file. -/
theorem c6_csv_export :
    (∀ rows : List Termeles, rows ≠ [] →
        ∃ csv, (export_csv_termeles rows).result = .file csv ∧
          csv.header = ["ID", "Év", "Hónap", "Nap", "Aranytermelés",
                        "Ezüsttermelés", "Gyémánttermelés"] ∧
          csv.dataRows.length = rows.length ∧ csv.dataRows = rows) ∧
    (∀ rows : List Termeles,
        (export_csv_termeles rows).result = .httpError 404 NO_DATA ↔ rows = []) ∧
    (∀ rows : List DwarfsAsWorkers, rows ≠ [] →
        ∃ csv, (export_csv_dwarf rows).result = .file csv ∧
          csv.header = ["ID", "Name", "Date", "Gold", "Silver", "Diamond"] ∧
          csv.dataRows.length = rows.length ∧ csv.dataRows = rows) ∧
    (∀ rows : List DwarfsAsWorkers,
        (export_csv_dwarf rows).result = .httpError 404 NO_DATA ↔ rows = []) ∧
    (∀ (l : List SubmitForm) (csv : TermelesCsv),
        (export_csv_termeles (insertManyTermeles l)).result = .file csv →
        List.Chain' (fun a b => a.id < b.id) csv.dataRows) ∧
    (∀ (l : List DwarfForm) (csv : DwarfCsv),
        (export_csv_dwarf (insertManyDwarfs l)).result = .file csv →
        List.Chain' (fun a b => a.id < b.id) csv.dataRows) := by
  refine ⟨?_, ?_, ?_, ?_, ?_, ?_⟩
  · intro rows hne
    have h : rows.isEmpty = false := by
      cases rows with
      | nil => exact absurd rfl hne
      | cons a as => rfl
    refine ⟨{ header := ["ID", "Év", "Hónap", "Nap", "Aranytermelés",
        "Ezüsttermelés", "Gyémánttermelés"], dataRows := rows }, ?_, rfl, rfl, rfl⟩
    simp [export_csv_termeles, h]
  · intro rows
    cases rows with
    | nil => simp [export_csv_termeles]
    | cons a as => simp [export_csv_termeles]
  · intro rows hne
    have h : rows.isEmpty = false := by
      cases rows with
      | nil => exact absurd rfl hne
      | cons a as => rfl
    refine ⟨{ header := ["ID", "Name", "Date", "Gold", "Silver",
        "Diamond"], dataRows := rows }, ?_, rfl, rfl, rfl⟩
    simp [export_csv_dwarf, h]
  · intro rows
    cases rows with
    | nil => simp [export_csv_dwarf]
    | cons a as => simp [export_csv_dwarf]
  · intro l csv hcsv
    have hchain := chain_foldl_insertTermeles l [] List.chain'_nil
    cases hrows : (insertManyTermeles l).isEmpty with
    | true =>
      have hx : (export_csv_termeles (insertManyTermeles l)).result =
          .httpError 404 NO_DATA := by
        simp [export_csv_termeles, hrows]
      rw [hx] at hcsv
      simp at hcsv
    | false =>
      have hx : (export_csv_termeles (insertManyTermeles l)).result = .file { header := ["ID", "Év", "Hónap", "Nap", "Aranytermelés", "Ezüsttermelés", "Gyémánttermelés"], dataRows := insertManyTermeles l } := by
        simp [export_csv_termeles, hrows]
      rw [hx] at hcsv
      simp only [TermelesExportResult.file.injEq] at hcsv
      rw [← hcsv]
      exact hchain
  · intro l csv hcsv
    have hchain := chain_foldl_insertDwarfs l [] List.chain'_nil
    cases hrows : (insertManyDwarfs l).isEmpty with
    | true =>
      have hx : (export_csv_dwarf (insertManyDwarfs l)).result =
          .httpError 404 NO_DATA := by
        simp [export_csv_dwarf, hrows]
      rw [hx] at hcsv
      simp at hcsv
    | false =>
      have hx : (export_csv_dwarf (insertManyDwarfs l)).result = .file { header := ["ID", "Name", "Date", "Gold", "Silver", "Diamond"], dataRows := insertManyDwarfs l } := by
        simp [export_csv_dwarf, hrows]
      rw [hx] at hcsv
      simp only [DwarfExportResult.file.injEq] at hcsv
      rw [← hcsv]
      exact hchain

/-- A sample one-row `termeles` table used by the C6 witness. -/
def sampleTermelesRow : Termeles :=
  { id := 1, ev := 2025, honap := 1, nap := 3, aranytermeles := 3,
    ezusttermeles := 3, gyemanttermeles := 0 }

/-- Witness for C6 at a one-row table. -/
theorem c6_witness :
    ∃ csv, (export_csv_termeles [sampleTermelesRow]).result = .file csv ∧
      csv.header = ["ID", "Év", "Hónap", "Nap", "Aranytermelés", "Ezüsttermelés",
        "Gyémánttermelés"] ∧
      csv.dataRows.length = [sampleTermelesRow].length ∧
      csv.dataRows = [sampleTermelesRow] :=
  c6_csv_export.1 [sampleTermelesRow] (by decide)

/-- C7: every operation that opens a session closes it on every exit path —
success, validation failure, and storage failure alike. -/
theorem c7_sessions_closed :
    (∀ (commitOk : Bool) (rows : List Termeles) (datum arany ezust gyemant : Value),
        (insert_termeles commitOk rows datum arany ezust gyemant).closed = true) ∧
    (∀ (commitOk : Bool) (rows : List DwarfsAsWorkers)
        (name datum gold silver diamond : Value),
        (insert_dwarf_as_worker commitOk rows name datum gold silver diamond).closed
          = true) ∧
    (∀ rows : List Termeles, (query_production_data rows).closed = true) ∧
    (∀ rows : List DwarfsAsWorkers, (query_dwarf_data rows).closed = true) ∧
    (∀ rows : List Termeles, (export_csv_termeles rows).closed = true) ∧
    (∀ rows : List DwarfsAsWorkers, (export_csv_dwarf rows).closed = true) ∧
    (∀ rows : List Termeles, (plot_data rows).closed = true) :=
  ⟨fun _ _ _ _ _ _ => rfl, fun _ _ _ _ _ _ _ => rfl, fun _ => rfl, fun _ => rfl,
   fun _ => rfl, fun _ => rfl, fun _ => rfl⟩

/-- C8: the plot endpoint answers 404 exactly on the empty table; otherwise it
plots the three quantity series of the rows sorted chronologically (by year,
month, day ascending) against the formatted dates. -/
theorem c8_plot (rows : List Termeles) :
    ((plot_data rows).result = .httpError 404 "No data found" ↔ rows = []) ∧
    (rows ≠ [] →
      (List.insertionSort chronoLE rows).Perm rows ∧
      List.Sorted chronoLE (List.insertionSort chronoLE rows) ∧
      (plot_data rows).result = .file
        { dates := (List.insertionSort chronoLE rows).map fmtDate,
          arany := (List.insertionSort chronoLE rows).map Termeles.aranytermeles,
          ezust := (List.insertionSort chronoLE rows).map Termeles.ezusttermeles,
          gyemant := (List.insertionSort chronoLE rows).map
            Termeles.gyemanttermeles }) := by
  constructor
  · constructor
    · intro h
      cases hs : List.insertionSort chronoLE rows with
      | nil =>
        have hp := List.perm_insertionSort chronoLE rows
        rw [hs] at hp
        exact hp.symm.eq_nil
      | cons a as => simp [plot_data, hs] at h
    · intro h; subst h; rfl
  · intro hne
    refine ⟨List.perm_insertionSort chronoLE rows,
      List.sorted_insertionSort chronoLE rows, ?_⟩
    cases hs : List.insertionSort chronoLE rows with
    | nil =>
      have hp := List.perm_insertionSort chronoLE rows
      rw [hs] at hp
      exact absurd hp.symm.eq_nil hne
    | cons a as => simp [plot_data, hs]

/-- A sample one-row `termeles` table used by the C8 witness. -/
def samplePlotRow : Termeles :=
  { id := 1, ev := 2025, honap := 1, nap := 4, aranytermeles := 1,
    ezusttermeles := 2, gyemanttermeles := 1 }

/-- Witness for C8 at a one-row table. -/
theorem c8_witness :
    (List.insertionSort chronoLE [samplePlotRow]).Perm [samplePlotRow] ∧
    List.Sorted chronoLE (List.insertionSort chronoLE [samplePlotRow]) ∧
    (plot_data [samplePlotRow]).result = .file
      { dates := (List.insertionSort chronoLE [samplePlotRow]).map fmtDate,
        arany := (List.insertionSort chronoLE [samplePlotRow]).map
          Termeles.aranytermeles,
        ezust := (List.insertionSort chronoLE [samplePlotRow]).map
          Termeles.ezusttermeles,
        gyemant := (List.insertionSort chronoLE [samplePlotRow]).map
          Termeles.gyemanttermeles } :=
  (c8_plot [samplePlotRow]).2 (by decide)

theorem insert_dwarf_bad_date (commitOk : Bool) (rows : List DwarfsAsWorkers)
    (name gold silver diamond : Value) (s : String)
    (hs : strptimeYmd s = none) :
    (insert_dwarf_as_worker commitOk rows name (.str s) gold silver diamond).result =
      .raisedHttp 400 DATA_MUST_BE_POSITIVE := by
  rcases name with n0 | q0 | nm <;> rcases gold with g | qg | sg <;>
    rcases silver with sv | qs | ss <;> rcases diamond with nd | di | sd <;>
    simp_all [insert_dwarf_as_worker, insert_dwarf_as_worker_body]

theorem submit_dwarf_of_raisedHttp (commitOk : Bool) (rows : List DwarfsAsWorkers)
    (name datum gold silver diamond : Value) (s : Nat) (d : String)
    (h : (insert_dwarf_as_worker commitOk rows name datum gold silver diamond).result
      = .raisedHttp s d) :
    (submit_dwarf commitOk rows name datum gold silver diamond).response =
      .error 500 (toString s ++ ": " ++ d) := by
  simp only [submit_dwarf, h]

theorem submit_dwarf_response_cases (commitOk : Bool) (rows : List DwarfsAsWorkers)
    (name datum gold silver diamond : Value) :
    (submit_dwarf commitOk rows name datum gold silver diamond).response =
      .ok "Dwarf data inserted successfully!" ∨
    ∃ d, (submit_dwarf commitOk rows name datum gold silver diamond).response =
      .error 500 d := by
  simp only [submit_dwarf]
  split
  · right; exact ⟨_, rfl⟩
  · right; exact ⟨_, rfl⟩
  · split
    · split
      · split_ifs
        · right; exact ⟨_, rfl⟩
        · left; rfl
      · right; exact ⟨_, rfl⟩
    · right; exact ⟨_, rfl⟩

/-- A `POST /submit-dwarf` input that is invalid in any of the claimed ways:
a field of the wrong runtime type, an unparseable date, or a negative
quantity. -/
def dwarfInputInvalid (name datum gold silver diamond : Value) : Prop :=
  name.isStr = false ∨ datum.isStr = false ∨ gold.isInt = false ∨
    silver.isInt = false ∨ diamond.isFloat = false ∨
    (∃ s, datum = .str s ∧ strptimeYmd s = none) ∨
    valueNeg gold ∨ valueNeg silver ∨ valueNeg diamond

/-- C9: every invalid `POST /submit-dwarf` input — negative quantity,
unparseable date, or wrong runtime type — yields a 500 response, never a 400:
the `HTTPException(400)` raised inside `insert_dwarf_as_worker` is caught by
`submit_dwarf`'s generic `except Exception` and re-raised as a 500. -/
theorem c9_submit_dwarf_500 :
    ∀ (commitOk : Bool) (rows : List DwarfsAsWorkers)
      (name datum gold silver diamond : Value),
      (dwarfInputInvalid name datum gold silver diamond →
        ∃ d, (submit_dwarf commitOk rows name datum gold silver diamond).response =
          .error 500 d) ∧
      (∀ s d, (submit_dwarf commitOk rows name datum gold silver diamond).response =
        .error s d → s = 500) := by
  intro commitOk rows name datum gold silver diamond
  constructor
  · intro hinv
    have h400 : (insert_dwarf_as_worker commitOk rows name datum gold silver
        diamond).result = .raisedHttp 400 DATA_MUST_BE_POSITIVE := by
      rcases hinv with h | h | h | h | h | ⟨s, rfl, hs⟩ | h | h | h
      · exact (insert_dwarf_type_error commitOk rows name datum gold silver diamond
          (Or.inl h)).1
      · exact (insert_dwarf_type_error commitOk rows name datum gold silver diamond
          (Or.inr (Or.inl h))).1
      · exact (insert_dwarf_type_error commitOk rows name datum gold silver diamond
          (Or.inr (Or.inr (Or.inl h)))).1
      · exact (insert_dwarf_type_error commitOk rows name datum gold silver diamond
          (Or.inr (Or.inr (Or.inr (Or.inl h))))).1
      · exact (insert_dwarf_type_error commitOk rows name datum gold silver diamond
          (Or.inr (Or.inr (Or.inr (Or.inr h))))).1
      · exact insert_dwarf_bad_date commitOk rows name gold silver diamond s hs
      · exact insert_dwarf_neg commitOk rows name datum gold silver diamond (Or.inl h)
      · exact insert_dwarf_neg commitOk rows name datum gold silver diamond
          (Or.inr (Or.inl h))
      · exact insert_dwarf_neg commitOk rows name datum gold silver diamond
          (Or.inr (Or.inr h))
    exact ⟨_, submit_dwarf_of_raisedHttp commitOk rows name datum gold silver
      diamond 400 DATA_MUST_BE_POSITIVE h400⟩
  · intro s d h
    rcases submit_dwarf_response_cases commitOk rows name datum gold silver diamond
      with hok | ⟨d0, h500⟩
    · rw [hok] at h; cases h
    · rw [h500] at h
      exact (HttpResponse.error.inj h.symm).1

/-- Witness for C9 at the unparseable date of the repository's own test. -/
theorem c9_witness :
    ∃ d, (submit_dwarf true [] (.str "Morgo") (.str "03-01-2025") (.int 1) (.int 2)
      (.float 1)).response = .error 500 d :=
  (c9_submit_dwarf_500 true [] (.str "Morgo") (.str "03-01-2025") (.int 1) (.int 2)
    (.float 1)).1
    (Or.inr (Or.inr (Or.inr (Or.inr (Or.inr (Or.inl
      ⟨"03-01-2025", rfl, by decide⟩))))))

/-- C10: both inserts reject a quantity (or date/name) of the wrong runtime
type even when its value is non-negative — the insertion fails validation and
the table is unchanged. -/
theorem c10_type_validation :
    ∀ commitOk : Bool,
      (∀ (rows : List Termeles) (datum arany ezust gyemant : Value),
        (datum.isStr = false ∨ arany.isInt = false ∨ ezust.isInt = false ∨
          gyemant.isFloat = false) →
        (∃ msg, (insert_termeles commitOk rows datum arany ezust gyemant).result =
          .validationReturn msg) ∧
        (insert_termeles commitOk rows datum arany ezust gyemant).rows = rows) ∧
      (∀ (rows : List DwarfsAsWorkers) (name datum gold silver diamond : Value),
        (name.isStr = false ∨ datum.isStr = false ∨ gold.isInt = false ∨
          silver.isInt = false ∨ diamond.isFloat = false) →
        (insert_dwarf_as_worker commitOk rows name datum gold silver diamond).result
          = .raisedHttp 400 DATA_MUST_BE_POSITIVE ∧
        (insert_dwarf_as_worker commitOk rows name datum gold silver diamond).rows
          = rows) :=
  fun commitOk =>
    ⟨fun rows d a e g h => insert_termeles_type_error commitOk rows d a e g h,
     fun rows n d g s di h => insert_dwarf_type_error commitOk rows n d g s di h⟩

/-- Witness for C10: the integer 1 passed for the float `diamond` field is
rejected although its value is non-negative. -/
theorem c10_witness :
    (insert_dwarf_as_worker true [] (.str "Kuka") (.str "2025-01-04") (.int 1)
      (.int 2) (.int 1)).result = .raisedHttp 400 DATA_MUST_BE_POSITIVE ∧
    (insert_dwarf_as_worker true [] (.str "Kuka") (.str "2025-01-04") (.int 1)
      (.int 2) (.int 1)).rows = [] :=
  (c10_type_validation true).2 [] (.str "Kuka") (.str "2025-01-04") (.int 1)
    (.int 2) (.int 1) (by decide)
